import Mathlib

/-!
Verification of the resilient fetch engine in `yahoogroupsapi.py`
(repository laidig/yahoo-group-archiver).

The Python source is shallowly embedded: each operation becomes a pure
Lean function from the server's behaviour (the HTTP response, or a
transport error, delivered on each attempt) to an outcome together with a
trace of the observable side effects (pacing sleeps, HTTP requests,
backoff sleeps, fixed sleeps).  Exceptions become constructors of the
`Outcome` type; uncaught Python exceptions (`NameError`, `TypeError`,
and the envelope-lookup failures on a 200 response) are modelled as
distinct terminal outcomes.
-/

/-- Result of calling `r.json()` on a response body, as the source
distinguishes the cases: the body may fail to parse (`json()` raises
`ValueError`), parse to a JSON object (subscripting with a string key
either succeeds or raises `KeyError`), or parse to a JSON value that is
not an object — a list, string, number, boolean or null — in which case
subscripting with a string key raises `TypeError`.  The payloads of
`ygData` / `ygError` are abstracted to natural numbers. -/
inductive JsonBody where
  | invalid : JsonBody
  | obj : Option Nat → Option Nat → JsonBody
  | nonObj : JsonBody
deriving DecidableEq, Repr

/-- The first field of `JsonBody.obj` is the `ygData` member (if present). -/
def JsonBody.ygData : JsonBody → Option Nat
  | .obj d _ => d
  | _ => none

/-- The second field of `JsonBody.obj` is the `ygError` member (if present). -/
def JsonBody.ygErr : JsonBody → Option Nat
  | .obj _ e => e
  | _ => none

/-- An HTTP response: status code plus the (parsed view of the) body. -/
structure HttpResponse where
  status : Nat
  body : JsonBody
deriving DecidableEq, Repr

/-- What the transport delivers on one attempt: either a completed HTTP
response, or a `ConnectionError` / `Timeout`. -/
inductive AttemptOutcome where
  | response : HttpResponse → AttemptOutcome
  | netError : AttemptOutcome
deriving DecidableEq, Repr

/-- Terminal outcome of a `get_json` or `download_file` call.
`ok d` is a normal return of the `ygData` value; `authError`, `notFound`
and `recoverable` are the raised taxonomy exceptions; `nameError` is the
uncaught `NameError` raised by evaluating `backoff_time(i)` with `i`
unbound; `typeError` is the uncaught `TypeError` raised by
`e.response.json()['ygError']` when the body is non-object JSON;
`envelopeError` is the uncaught `ValueError`/`KeyError`/`TypeError`
raised by `r.json()['ygData']` on a 200 response whose body is not an
object carrying `ygData`. -/
inductive Outcome where
  | ok : Nat → Outcome
  | authError : Outcome
  | notFound : Outcome
  | recoverable : Outcome
  | nameError : Outcome
  | typeError : Outcome
  | envelopeError : Outcome
deriving DecidableEq, Repr

/-- Observable side effects, in order of occurrence: `time.sleep(self.delay)`
(pacing), an HTTP request on the session, `time.sleep(backoff_time(...))`,
and the fixed `time.sleep(5)` of the download path. -/
inductive Event where
  | paceSleep : Nat → Event
  | httpGet : Event
  | backoffSleep : Nat → Event
  | fixedSleep : Nat → Event
deriving DecidableEq, Repr

/-- `random.randint(a, b)`: a uniformly random integer `v` with
`a <= v <= b`, both endpoints included.  The random draw is made explicit
as the extra argument `choice`; as `choice` ranges over the naturals the
result ranges over exactly the integers of the closed interval `[a, b]`. -/
def randint (choice a b : Nat) : Nat :=
  a + choice % (b - a + 1)

/-- `backoff_time(attempt)` from the source:
`random.randint(2**(attempt), 2**(attempt+1))`. -/
def backoff_time (choice attempt : Nat) : Nat :=
  randint choice (2 ^ attempt) (2 ^ (attempt + 1))

/-- `YahooGroupsAPI.BASE_URI`. -/
def BASE_URI : String := "https://groups.yahoo.com/api"

/-- `YahooGroupsAPI.API_VERSIONS`, the static resource-name → API-version
mapping (a Python dict with distinct keys, embedded as an association
list). -/
def API_VERSIONS : List (String × String) :=
  [("HackGroupInfo", "v1"),
   ("messages", "v1"),
   ("files", "v2"),
   ("albums", "v2"),
   ("database", "v1"),
   ("links", "v1"),
   ("statistics", "v1"),
   ("polls", "v1"),
   ("attachments", "v1"),
   ("members", "v1")]

/-- Dict lookup `API_VERSIONS[name]`, as an `Option`. -/
def apiVersion? (name : String) : Option String :=
  (API_VERSIONS.find? (fun p => p.1 == name)).map (fun p => p.2)

/-- Result of attribute access on a `YahooGroupsAPI` instance for a
resource name: either the bound REST stub `functools.partial(self.get_json, name)`
or the `AttributeError` raised when the name is not a key of
`API_VERSIONS`. -/
inductive GetattrResult where
  | stub : String → GetattrResult
  | attributeError : GetattrResult
deriving DecidableEq, Repr

/-- `YahooGroupsAPI.__getattr__(name)`: raises `AttributeError` when
`name not in self.API_VERSIONS`, otherwise returns the partial
application of `get_json` to `name`.  No network activity takes place in
either case, so the event trace is empty. -/
def yga_getattr (name : String) : GetattrResult × List Event :=
  if (apiVersion? name).isSome then (.stub name, [])
  else (.attributeError, [])

/-- A positional path part of a REST call; the source applies `str` to
each (`map(str, parts)`), so integers are rendered in decimal. -/
inductive PathPart where
  | num : Nat → PathPart
  | strPart : String → PathPart
deriving DecidableEq, Repr

/-- Python `str` on a path part. -/
def PathPart.toStr : PathPart → String
  | .num n => toString n
  | .strPart s => s

/-- The URI construction of `get_json` (lines 118–124 of the source):
`uri_parts = [BASE_URI, API_VERSIONS[target], 'groups', group, target] + map(str, parts)`;
then, for the `HackGroupInfo` target, `uri_parts[4] = ''`; finally the
parts are joined with `/`.  Returns `none` when `target` is not a key of
`API_VERSIONS` (dict indexing raises `KeyError`). -/
def buildUri (group target : String) (parts : List PathPart) : Option String :=
  match apiVersion? target with
  | none => none
  | some ver =>
    let uri_parts := [BASE_URI, ver, "groups", group, target] ++ parts.map PathPart.toStr
    let uri_parts := if target == "HackGroupInfo" then uri_parts.set 4 "" else uri_parts
    some (String.intercalate "/" uri_parts)

/-- Outcome of the `ygError = e.response.json()['ygError']` extraction in
the `HTTPError` handler.  `ValueError` (body not valid JSON) and
`KeyError` (object without the key) are caught by the
`except (ValueError, KeyError)` clause; `TypeError` (body is valid JSON
but not an object) is not caught. -/
inductive ExtractResult where
  | okVal : Nat → ExtractResult
  | swallowed : ExtractResult
  | typeErr : ExtractResult
deriving DecidableEq, Repr

/-- The best-effort `ygError` extraction on a non-200 body. -/
def extractYgError : JsonBody → ExtractResult
  | .invalid => .swallowed
  | .obj _ none => .swallowed
  | .obj _ (some v) => .okVal v
  | .nonObj => .typeErr

/-- Classification of one attempt of the `get_json` loop body
(lines 129–155 of the source).  A transport error is `Recoverable`.  A
200 response returns `r.json()['ygData']` when the body is an object
carrying it, and otherwise lets the lookup exception escape.  Any other
status reaches the `HTTPError` handler (`raise_for_status` raises for
4xx/5xx, and the explicit `status_code != 200` check raises for the
rest), which first attempts the `ygError` extraction — an uncaught
`TypeError` ends the call — and then classifies by status code:
307/401/403 are `AuthenticationError`, 404 is `NotFound`, everything
else is `Recoverable`. -/
def attemptResult : AttemptOutcome → Outcome
  | .netError => .recoverable
  | .response r =>
    if r.status = 200 then
      match r.body with
      | .obj (some d) _ => .ok d
      | _ => .envelopeError
    else
      match extractYgError r.body with
      | .typeErr => .typeError
      | _ =>
        if r.status = 307 ∨ r.status = 401 ∨ r.status = 403 then .authError
        else if r.status = 404 then .notFound
        else .recoverable

/-- The body of the `for attempt in range(tries)` loop of `get_json`,
exactly as it executes in the source.  When the attempt is classified
`Recoverable` and attempts remain (`attempt < tries - 1`), the handler
evaluates `backoff_time(i)` — but `i` is not bound anywhere in
`get_json`, so a `NameError` is raised before the backoff sleep and
before the `continue`; the loop therefore never reaches a second
iteration.  When the attempt is the last one, the `Recoverable` is
re-raised.  All other classifications terminate the loop directly. -/
def getJsonLoop (server : Nat → AttemptOutcome) (tries attempt : Nat) :
    Outcome × List Event :=
  match attemptResult (server attempt) with
  | .recoverable =>
    if attempt < tries - 1 then
      (.nameError, [.httpGet])
    else
      (.recoverable, [.httpGet])
  | o => (o, [.httpGet])

/-- `get_json` (lines 115–163): after building the URI, a single
`time.sleep(self.delay)` pacing sleep is executed (line 125, before the
attempt loop), then the loop runs with `tries = 5` starting at
attempt 0. -/
def get_json (delay : Nat) (server : Nat → AttemptOutcome) :
    Outcome × List Event :=
  let res := getJsonLoop server 5 0
  (res.1, .paceSleep delay :: res.2)

/-- Outcome of `download_file`: either the streamed/returned content, or
the `HTTPError` raised by `r.raise_for_status()` (which raises exactly
for statuses in 400–599). -/
inductive DlOutcome where
  | content : DlOutcome
  | httpError : Nat → DlOutcome
deriving DecidableEq, Repr

/-- The `while True` loop of `download_file` (lines 98–107): each
iteration sleeps the pacing delay and issues the request; on a 400
response with retries remaining it decrements the retry budget, sleeps a
fixed 5 seconds and continues; otherwise `raise_for_status()` raises for
any status in 400–599 and the content is returned for the rest. -/
def downloadLoop (delay : Nat) (server : Nat → Nat) (attempt retries : Nat) :
    DlOutcome × List Event :=
  let s := server attempt
  if h : s = 400 ∧ 0 < retries then
    let rest := downloadLoop delay server (attempt + 1) (retries - 1)
    (rest.1, .paceSleep delay :: .httpGet :: .fixedSleep 5 :: rest.2)
  else if 400 ≤ s ∧ s < 600 then
    (.httpError s, [.paceSleep delay, .httpGet])
  else
    (.content, [.paceSleep delay, .httpGet])
termination_by retries
decreasing_by
  exact Nat.sub_lt h.2 Nat.one_pos

/-- `download_file` (lines 95–113): runs the loop with a retry budget of
5, starting at attempt 0. -/
def download_file (delay : Nat) (server : Nat → Nat) :
    DlOutcome × List Event :=
  downloadLoop delay server 0 5

/-- `pacedTraceAux delay armed evs` holds when every `httpGet` in `evs`
is preceded — since the previous `httpGet`, if any — by a pacing sleep
of `delay` seconds (`armed` records whether one has been seen since the
last request). -/
def pacedTraceAux (delay : Nat) (armed : Bool) : List Event → Bool
  | [] => true
  | .paceSleep d :: rest => pacedTraceAux delay (armed || (d == delay)) rest
  | .httpGet :: rest => armed && pacedTraceAux delay false rest
  | .backoffSleep _ :: rest => pacedTraceAux delay armed rest
  | .fixedSleep _ :: rest => pacedTraceAux delay armed rest

/-- Every HTTP request in the trace is preceded by a pacing sleep of
`delay` seconds issued after the previous request (if any). -/
def pacedTrace (delay : Nat) (evs : List Event) : Bool :=
  pacedTraceAux delay false evs

/-- The event trace produced by the download loop when every attempt
returns HTTP 400: one paced request and a fixed 5-second sleep per
consumed retry, then a final paced request. -/
def dlTrace400 (delay : Nat) : Nat → List Event
  | 0 => [.paceSleep delay, .httpGet]
  | r + 1 => .paceSleep delay :: .httpGet :: .fixedSleep 5 :: dlTrace400 delay r

/-- A server that always answers HTTP 503 with a body that is not valid
JSON. -/
def srv503json : Nat → AttemptOutcome := fun _ => .response ⟨503, .invalid⟩

/-- A server that always answers HTTP 401 with a body that is valid JSON
but not an object (e.g. a JSON array). -/
def srv401arr : Nat → AttemptOutcome := fun _ => .response ⟨401, .nonObj⟩

/-- A server that always answers HTTP 401 with a non-JSON body. -/
def srv401 : Nat → AttemptOutcome := fun _ => .response ⟨401, .invalid⟩

/-- A server that always answers HTTP 404 with a body that is valid JSON
but not an object. -/
def srv404arr : Nat → AttemptOutcome := fun _ => .response ⟨404, .nonObj⟩

/-- A server that always answers HTTP 404 with a non-JSON body. -/
def srv404 : Nat → AttemptOutcome := fun _ => .response ⟨404, .invalid⟩

/-- A server that always answers HTTP 200 with an object body carrying
`ygData = 42`. -/
def srv200 : Nat → AttemptOutcome := fun _ => .response ⟨200, .obj (some 42) none⟩

/-- A download server that always answers HTTP 304 (non-2xx, not 400). -/
def srv304 : Nat → Nat := fun _ => 304

/-- A download server that always answers HTTP 503. -/
def srv503 : Nat → Nat := fun _ => 503

/-- A download server that always answers HTTP 400. -/
def srv400 : Nat → Nat := fun _ => 400

/-! ### Helper lemmas -/

/-- On a non-200 response whose body is not non-object JSON, the
classification of one attempt depends only on the status code. -/
lemma attemptResult_status_only (s : Nat) (b : JsonBody)
    (h200 : s ≠ 200) (hb : b ≠ JsonBody.nonObj) :
    attemptResult (.response ⟨s, b⟩) =
      (if s = 307 ∨ s = 401 ∨ s = 403 then .authError
       else if s = 404 then .notFound else .recoverable) := by
  rcases b with _ | ⟨d, e⟩ | _
  · simp [attemptResult, extractYgError, h200]
  · cases e <;> simp [attemptResult, extractYgError, h200]
  · exact absurd rfl hb

/-- The attempt loop of `get_json` always issues exactly one HTTP
request: every branch of the loop body, including the defective
`backoff_time(i)` retry branch, terminates after the first request. -/
lemma getJsonLoop_trace (server : Nat → AttemptOutcome) (tries attempt : Nat) :
    (getJsonLoop server tries attempt).2 = [.httpGet] := by
  rcases hres : attemptResult (server attempt) <;>
    by_cases h : attempt < tries - 1 <;>
      simp [getJsonLoop, hres, h]

/-- The trace of a `get_json` call is one pacing sleep followed by one
HTTP request. -/
lemma get_json_trace (delay : Nat) (server : Nat → AttemptOutcome) :
    (get_json delay server).2 = [.paceSleep delay, .httpGet] := by
  simp [get_json, getJsonLoop_trace]

/-- When the server answers 400 on every attempt the loop consumes, the
download loop exhausts its retry budget and raises the `HTTPError` of
the final 400 response. -/
lemma downloadLoop_all400 (delay : Nat) (server : Nat → Nat) :
    ∀ retries attempt,
      (∀ k, attempt ≤ k → k ≤ attempt + retries → server k = 400) →
      downloadLoop delay server attempt retries =
        (.httpError 400, dlTrace400 delay retries) := by
  intro retries
  induction retries with
  | zero =>
    intro attempt h
    have h0 : server attempt = 400 := h attempt le_rfl (by omega)
    rw [downloadLoop]
    simp [h0, dlTrace400]
  | succ r ih =>
    intro attempt h
    have h0 : server attempt = 400 := h attempt le_rfl (by omega)
    have hrec := ih (attempt + 1) (fun k hk1 hk2 => h k (by omega) (by omega))
    rw [downloadLoop]
    simp [h0, hrec, dlTrace400]

/-- The download loop never performs a jittered backoff sleep. -/
lemma downloadLoop_no_backoff (delay : Nat) (server : Nat → Nat) :
    ∀ retries attempt w,
      Event.backoffSleep w ∉ (downloadLoop delay server attempt retries).2 := by
  intro retries
  induction retries with
  | zero =>
    intro attempt w
    rw [downloadLoop]
    split
    · next h => exact absurd h.2 (lt_irrefl 0)
    · split <;> simp
  | succ r ih =>
    intro attempt w
    rw [downloadLoop]
    split
    · simp only [Nat.succ_sub_one, Prod.snd, List.mem_cons]
      push_neg
      refine ⟨by simp, by simp, by simp, ?_⟩
      exact ih (attempt + 1) w
    · split <;> simp

/-- Every request the download loop issues is preceded by a pacing sleep
since the previous request. -/
lemma downloadLoop_paced (delay : Nat) (server : Nat → Nat) :
    ∀ retries attempt,
      pacedTraceAux delay false (downloadLoop delay server attempt retries).2 = true := by
  intro retries
  induction retries with
  | zero =>
    intro attempt
    rw [downloadLoop]
    split
    · next h => exact absurd h.2 (lt_irrefl 0)
    · split <;> simp [pacedTraceAux]
  | succ r ih =>
    intro attempt
    rw [downloadLoop]
    split
    · simp only [Nat.succ_sub_one, Prod.snd]
      simp [pacedTraceAux]
      exact ih (attempt + 1)
    · split <;> simp [pacedTraceAux]

/-! ### Claims -/

/-- C1 (code bug): the claim states that a JSON fetch receiving only
retryable failures performs exactly 5 attempts, sleeps with exponential
backoff before each retried attempt, and finally raises `Recoverable`.
The source instead evaluates `backoff_time(i)` in the retry branch of
`get_json` with `i` unbound anywhere in the function, so an uncaught
`NameError` is raised after the first attempt, with no backoff sleep and
no further attempts.  This theorem evaluates the engine on a server that
always answers HTTP 503: the call ends after a single request with the
`NameError`. -/
theorem getJson_retryable_raises_nameError :
    get_json 0 srv503json = (.nameError, [.paceSleep 0, .httpGet]) := rfl

/-- C2: every HTTP request the engine issues — on the JSON path and on
the streaming path alike — is preceded by a pacing sleep of the
configured `delay` seconds performed since the previous request.  On the
JSON path the pacing sleep of line 125 runs once before the attempt
loop; as the defective retry branch (see C1) prevents any second
attempt, every request the engine actually issues is paced.  On the
download path the pacing sleep is inside the `while` loop, before every
attempt. -/
theorem every_request_paced (delay : Nat) (jserver : Nat → AttemptOutcome)
    (dserver : Nat → Nat) :
    pacedTrace delay (get_json delay jserver).2 = true ∧
    pacedTrace delay (download_file delay dserver).2 = true := by
  constructor
  · rw [get_json_trace]
    simp [pacedTrace, pacedTraceAux]
  · exact downloadLoop_paced delay dserver 5 0

/-- C3 counterexample: a 401 response whose body is valid JSON but not
an object (e.g. a JSON array) does not raise `AuthenticationError`: the
`ygError` extraction `e.response.json()['ygError']` raises a `TypeError`
that the `except (ValueError, KeyError)` clause does not catch, so the
call ends with the uncaught `TypeError` before the status is ever
classified. -/
theorem auth_status_nonObj_raises_typeError :
    get_json 0 srv401arr = (.typeError, [.paceSleep 0, .httpGet]) ∧
    Outcome.typeError ≠ Outcome.authError := ⟨rfl, by decide⟩

/-- C3 amended: for every HTTP response with status 307, 401 or 403
whose body is absent, not valid JSON, or a JSON object, the engine
raises `AuthenticationError` on the first attempt, issuing exactly one
request and performing no backoff sleep. -/
theorem auth_status_first_attempt (delay : Nat) (server : Nat → AttemptOutcome)
    (r : HttpResponse) (hsrv : server 0 = .response r)
    (hst : r.status = 307 ∨ r.status = 401 ∨ r.status = 403)
    (hb : r.body ≠ JsonBody.nonObj) :
    get_json delay server = (.authError, [.paceSleep delay, .httpGet]) := by
  have hcl : attemptResult (server 0) = .authError := by
    rw [hsrv]
    rcases r with ⟨s, b⟩
    simp only at hst hb
    have h200 : s ≠ 200 := by rcases hst with h | h | h <;> omega
    rw [attemptResult_status_only s b h200 hb]
    exact if_pos hst
  simp [get_json, getJsonLoop, hcl]

/-- C3 witness: a 401 response with a non-JSON body raises
`AuthenticationError` after a single paced request. -/
theorem auth_status_first_attempt_witness :
    get_json 0 srv401 = (.authError, [.paceSleep 0, .httpGet]) :=
  auth_status_first_attempt 0 srv401 ⟨401, .invalid⟩ rfl (by decide) (by decide)

/-- C4 counterexample: a 404 response whose body is valid JSON but not
an object does not raise `NotFound`: the `ygError` extraction raises an
uncaught `TypeError` before the status is classified. -/
theorem notFound_status_nonObj_raises_typeError :
    get_json 0 srv404arr = (.typeError, [.paceSleep 0, .httpGet]) ∧
    Outcome.typeError ≠ Outcome.notFound := ⟨rfl, by decide⟩

/-- C4 amended: for every HTTP response with status 404 whose body is
absent, not valid JSON, or a JSON object, the engine raises `NotFound`
on the first attempt, issuing exactly one request. -/
theorem notFound_status_first_attempt (delay : Nat) (server : Nat → AttemptOutcome)
    (r : HttpResponse) (hsrv : server 0 = .response r)
    (hst : r.status = 404) (hb : r.body ≠ JsonBody.nonObj) :
    get_json delay server = (.notFound, [.paceSleep delay, .httpGet]) := by
  have hcl : attemptResult (server 0) = .notFound := by
    rw [hsrv]
    rcases r with ⟨s, b⟩
    simp only at hst hb
    subst hst
    rw [attemptResult_status_only 404 b (by omega) hb]
    norm_num
  simp [get_json, getJsonLoop, hcl]

/-- C4 witness: a 404 response with a non-JSON body raises `NotFound`
after a single paced request. -/
theorem notFound_status_first_attempt_witness :
    get_json 0 srv404 = (.notFound, [.paceSleep 0, .httpGet]) :=
  notFound_status_first_attempt 0 srv404 ⟨404, .invalid⟩ rfl rfl (by decide)

/-- C5: a resource name that is not a key of `API_VERSIONS` is rejected
by `__getattr__` with an `AttributeError`, with no network activity
(the event trace is empty). -/
theorem unknown_resource_rejected (name : String)
    (h : apiVersion? name = none) :
    yga_getattr name = (.attributeError, []) := by
  simp [yga_getattr, h]

/-- C5 witness: the name `wibble` is not in the mapping and is rejected
locally. -/
theorem unknown_resource_rejected_witness :
    yga_getattr "wibble" = (.attributeError, []) :=
  unknown_resource_rejected "wibble" rfl

/-- C6: the URI built for resource `messages`, group `mygroup` and path
parts `(123, 'raw')` is `BASE_URI/v1/groups/mygroup/messages/123/raw`;
for the root-info resource `HackGroupInfo` with no path parts the
resource segment is replaced by the empty string, giving
`BASE_URI/v1/groups/mygroup/` with a trailing slash. -/
theorem uri_construction :
    buildUri "mygroup" "messages" [.num 123, .strPart "raw"] =
      some (BASE_URI ++ "/v1/groups/mygroup/messages/123/raw") ∧
    buildUri "mygroup" "HackGroupInfo" [] =
      some (BASE_URI ++ "/v1/groups/mygroup/") := ⟨rfl, rfl⟩

/-- C7: a 200 response whose envelope carries `ygData` makes `get_json`
return that value directly, after a single paced request and with no
further attempts.  (The first attempt is the only attempt the source can
ever reach: the defective retry branch of C1 ends the call before any
later attempt, so the property is vacuous for attempt indices above 0.) -/
theorem success_returns_ygData (delay : Nat) (server : Nat → AttemptOutcome)
    (d : Nat) (e : Option Nat)
    (hsrv : server 0 = .response ⟨200, .obj (some d) e⟩) :
    get_json delay server = (.ok d, [.paceSleep delay, .httpGet]) := by
  have hcl : attemptResult (server 0) = .ok d := by
    rw [hsrv]
    simp [attemptResult]
  simp [get_json, getJsonLoop, hcl]

/-- C7 witness: a 200 response with `ygData = 42` returns 42. -/
theorem success_returns_ygData_witness :
    get_json 3 srv200 = (.ok 42, [.paceSleep 3, .httpGet]) :=
  success_returns_ygData 3 srv200 42 none rfl

/-- C8 counterexample: a 304 response on the download path is non-2xx
and is not 400, yet the call raises nothing: `raise_for_status()` only
raises for statuses in 400–599, so the loop breaks and the content is
returned. -/
theorem download_304_not_raised :
    download_file 0 srv304 = (.content, [.paceSleep 0, .httpGet]) := by
  show downloadLoop 0 srv304 0 5 = _
  rw [downloadLoop]
  simp [srv304]

/-- C8 amended: on the download path, a status in 400–599 other than 400
raises immediately after a single paced request; six consecutive 400
responses exhaust the 5-retry budget — each retry after a fixed
5-second sleep, with no jittered backoff sleep anywhere in the trace —
and the sixth 400 raises; statuses outside 400–599 (including non-2xx
1xx/3xx statuses) never raise. -/
theorem download_retry_behaviour (delay : Nat) (server : Nat → Nat) :
    (∀ s, server 0 = s → 400 ≤ s → s < 600 → s ≠ 400 →
       download_file delay server =
         (.httpError s, [.paceSleep delay, .httpGet])) ∧
    ((∀ k, k ≤ 5 → server k = 400) →
       download_file delay server =
         (.httpError 400,
          [.paceSleep delay, .httpGet, .fixedSleep 5,
           .paceSleep delay, .httpGet, .fixedSleep 5,
           .paceSleep delay, .httpGet, .fixedSleep 5,
           .paceSleep delay, .httpGet, .fixedSleep 5,
           .paceSleep delay, .httpGet, .fixedSleep 5,
           .paceSleep delay, .httpGet])) ∧
    (∀ w, Event.backoffSleep w ∉ (download_file delay server).2) := by
  refine ⟨?_, ?_, ?_⟩
  · intro s hs h1 h2 h3
    show downloadLoop delay server 0 5 = _
    rw [downloadLoop]
    simp [hs, h1, h2, h3]
  · intro h400
    show downloadLoop delay server 0 5 = _
    rw [downloadLoop_all400 delay server 5 0 (fun k hk1 hk2 => h400 k (by omega))]
    rfl
  · intro w
    exact downloadLoop_no_backoff delay server 5 0 w

/-- C8 witness: a 503 response raises at once; six 400 responses retry
five times with fixed 5-second sleeps and then raise; no backoff sleep
occurs. -/
theorem download_retry_behaviour_witness :
    download_file 0 srv503 = (.httpError 503, [.paceSleep 0, .httpGet]) ∧
    download_file 0 srv400 =
      (.httpError 400,
       [.paceSleep 0, .httpGet, .fixedSleep 5,
        .paceSleep 0, .httpGet, .fixedSleep 5,
        .paceSleep 0, .httpGet, .fixedSleep 5,
        .paceSleep 0, .httpGet, .fixedSleep 5,
        .paceSleep 0, .httpGet, .fixedSleep 5,
        .paceSleep 0, .httpGet]) ∧
    Event.backoffSleep 4 ∉ (download_file 0 srv503).2 :=
  ⟨(download_retry_behaviour 0 srv503).1 503 rfl (by decide) (by decide) (by decide),
   (download_retry_behaviour 0 srv400).2.1 (fun k _ => rfl),
   (download_retry_behaviour 0 srv503).2.2 4⟩

/-- C9 counterexample: the claim says the classification of a non-2xx
response is identical whether or not the error body parses.  A 503
response whose body parses to a non-object JSON value ends in an
uncaught `TypeError` (from `e.response.json()['ygError']`, which the
`except (ValueError, KeyError)` clause does not catch), while the same
status with a non-parsing body is classified `Recoverable`. -/
theorem ygError_extraction_not_always_swallowed :
    attemptResult (.response ⟨503, JsonBody.nonObj⟩) = .typeError ∧
    attemptResult (.response ⟨503, JsonBody.invalid⟩) = .recoverable ∧
    Outcome.typeError ≠ Outcome.recoverable := ⟨rfl, rfl, by decide⟩

/-- C9 amended: for a non-2xx response whose body is absent, not valid
JSON, or a JSON object (with or without the `ygError` member), the
extraction failure is swallowed and the classification outcome depends
only on the status code: any two such bodies classify identically. -/
theorem error_body_ignored_for_classification (s : Nat) (b b2 : JsonBody)
    (hs : s < 200 ∨ 300 ≤ s)
    (hb : b ≠ JsonBody.nonObj) (hb2 : b2 ≠ JsonBody.nonObj) :
    attemptResult (.response ⟨s, b⟩) = attemptResult (.response ⟨s, b2⟩) := by
  have h200 : s ≠ 200 := by omega
  rw [attemptResult_status_only s b h200 hb,
    attemptResult_status_only s b2 h200 hb2]

/-- C9 witness: a 503 with a non-parsing body and a 503 with an object
body carrying `ygError` classify identically. -/
theorem error_body_ignored_witness :
    attemptResult (.response ⟨503, JsonBody.invalid⟩) =
      attemptResult (.response ⟨503, JsonBody.obj none (some 9)⟩) :=
  error_body_ignored_for_classification 503 JsonBody.invalid
    (JsonBody.obj none (some 9)) (Or.inr (by decide)) (by decide) (by decide)

/-- C10: `backoff_time(n)` always lies in the closed interval
`[2^n, 2^(n+1)]`, and both endpoints are attainable (`random.randint`
includes both bounds): the draw `0` gives `2^n` and the draw `2^n` gives
`2^(n+1)`. -/
theorem backoff_time_range (c n : Nat) :
    2 ^ n ≤ backoff_time c n ∧ backoff_time c n ≤ 2 ^ (n + 1) ∧
    backoff_time 0 n = 2 ^ n ∧ backoff_time (2 ^ n) n = 2 ^ (n + 1) := by
  have hpow : 2 ^ (n + 1) = 2 ^ n + 2 ^ n := by
    rw [pow_succ]
    omega
  have hint : 2 ^ (n + 1) - 2 ^ n + 1 = 2 ^ n + 1 := by
    rw [hpow]
    generalize 2 ^ n = p
    omega
  have hmod : c % (2 ^ n + 1) ≤ 2 ^ n :=
    Nat.lt_succ_iff.mp (Nat.mod_lt c (Nat.succ_pos _))
  have h0 : 0 % (2 ^ n + 1) = 0 := Nat.zero_mod _
  have hself : 2 ^ n % (2 ^ n + 1) = 2 ^ n :=
    Nat.mod_eq_of_lt (Nat.lt_succ_self _)
  unfold backoff_time randint
  rw [hint, h0, hself, hpow]
  generalize c % (2 ^ n + 1) = m at hmod
  generalize 2 ^ n = p at hmod ⊢
  refine ⟨?_, ?_, ?_, ?_⟩ <;> omega
